import Mathlib

/-!
Shallow embedding of the VST3 hosting layer described by the Rust sketches in
VST3_IMPLEMENTATION_PLAN.md (the engine/src/vst3 modules): the parameter
store, state save/restore, track-level plugin management, the per-block
processing bridge and instance teardown.

Modelling conventions: f32 normalized parameter values are modelled as exact
rationals (Rat) — the code only stores and compares them, it performs no
rounding arithmetic; byte blobs are List Nat; the opaque native plugin behind
the COM facets is a state type sigma driven through an explicit interface
record; methods taking &mut self return an (Except String Unit * state) pair
so that the state is threaded even when the method fails early.
-/

namespace Vst3

/-- First index of an element satisfying the predicate: Iterator::position in
the Rust source. -/
def listPosition {α : Type} (pred : α → Bool) : List α → Option Nat
  | [] => none
  | a :: rest => if pred a then some 0 else (listPosition pred rest).map (· + 1)

theorem listPosition_some_get? {α : Type} {pred : α → Bool} :
    ∀ {l : List α} {i : Nat}, listPosition pred l = some i →
      ∃ a, l.get? i = some a ∧ pred a = true := by
  intro l
  induction l with
  | nil => intro i h; simp [listPosition] at h
  | cons a rest ih =>
    intro i h
    by_cases hp : pred a
    · simp [listPosition, hp] at h
      exact h ▸ ⟨a, rfl, hp⟩
    · simp [listPosition, hp] at h
      obtain ⟨j, hj, hji⟩ := h
      obtain ⟨b, hb, hpb⟩ := ih hj
      exact ⟨b, by simpa [← hji] using hb, hpb⟩

theorem listPosition_lt {α : Type} {pred : α → Bool} {l : List α} {i : Nat}
    (h : listPosition pred l = some i) : i < l.length := by
  obtain ⟨a, ha, -⟩ := listPosition_some_get? h
  exact List.get?_eq_some.mp ha |>.choose

theorem listPosition_isSome_of_mem {α : Type} {pred : α → Bool} {a : α} :
    ∀ {l : List α}, a ∈ l → pred a = true → (listPosition pred l).isSome = true := by
  intro l
  induction l with
  | nil => intro h; simp at h
  | cons b rest ih =>
    intro hmem hpred
    rcases List.mem_cons.mp hmem with hab | hrest
    · subst hab; simp [listPosition, hpred]
    · by_cases hb : pred b
      · simp [listPosition, hb]
      · have := ih hrest hpred
        simp [listPosition, hb, Option.isSome_map]
        simpa using this

theorem getD_set_self : ∀ (l : List Rat) (i : Nat) (v : Rat), i < l.length →
    (l.set i v).getD i 0 = v := by
  intro l
  induction l with
  | nil => intro i v h; simp at h
  | cons a rest ih =>
    intro i v h
    cases i with
    | zero => simp
    | succ j => simpa using ih j v (by simpa using h)

theorem getD_set_ne : ∀ (l : List Rat) (v : Rat) {i j : Nat}, i ≠ j →
    (l.set j v).getD i 0 = l.getD i 0 := by
  intro l
  induction l with
  | nil => intro v i j _; simp
  | cons a rest ih =>
    intro v i j hne
    cases j with
    | zero =>
      cases i with
      | zero => exact absurd rfl hne
      | succ i2 => simp
    | succ j2 =>
      cases i with
      | zero => simp
      | succ i2 => simpa using ih v (fun hc => hne (by simpa using congrArg Nat.succ hc))

/-- Mirrors ParameterInfo (plan lines 435-444). -/
structure ParameterInfo where
  id : Nat
  title : String
  short_title : String
  units : String
  step_count : Int
  default_value : Rat
  flags : Int
  deriving Repr, DecidableEq

/-- Mirrors BusInfo (plan lines 83-88). -/
structure BusInfo where
  index : Nat
  name : String
  channel_count : Nat
  is_active : Bool
  deriving Repr, DecidableEq

/-- Mirrors Vst3PluginState (plan lines 541-546): plugin identity plus the
opaque component and controller byte blobs. -/
structure Vst3PluginState where
  plugin_id : String
  component_state : List Nat
  controller_state : List Nat
  deriving Repr, DecidableEq

/-- Observable behaviour of the native plugin behind the COM facets
(IComponent::setState, IEditController::setState, getParamNormalized and
setParamNormalized) over an opaque plugin-internal state type.  Mutating
native calls thread the state explicitly; fallible ones also return the
plugin's reported result, and may mutate even when they fail. -/
structure PluginIface (σ : Type) where
  componentSetState : σ → List Nat → Except String Unit × σ
  controllerSetState : σ → List Nat → Except String Unit × σ
  getParamNormalized : σ → Nat → Rat
  setParamNormalized : σ → Nat → Rat → σ

/-- Mirrors the parameter- and state-relevant fields of Vst3Processor (plan
lines 186-213): scalar_values is the host-side normalized value cache and
previous_values the last-forwarded cache used for per-block delta detection. -/
structure Vst3Processor (σ : Type) where
  plugin_id : String
  name : String
  parameters : List ParameterInfo
  scalar_values : List Rat
  previous_values : List Rat
  plugin : σ
  deriving Repr, DecidableEq

/-- Mirrors get_parameter_value (plan lines 476-480): position lookup by
parameter id, then read the cache slot. -/
def get_parameter_value {σ : Type} (p : Vst3Processor σ) (param_id : Nat) : Option Rat :=
  (listPosition (fun q => q.id == param_id) p.parameters).map
    (fun idx => p.scalar_values.getD idx 0)

/-- Mirrors set_parameter_value (plan lines 482-497): an unknown id returns
early with the error, leaving the processor untouched; otherwise the cache
slot is set and the edit-controller facet is invoked via setParamNormalized.
The code performs no range check on normalized_value. -/
def set_parameter_value {σ : Type} (iface : PluginIface σ) (p : Vst3Processor σ)
    (param_id : Nat) (normalized_value : Rat) : Except String Unit × Vst3Processor σ :=
  match listPosition (fun q => q.id == param_id) p.parameters with
  | none => (Except.error "Parameter not found", p)
  | some idx =>
    (Except.ok (), { p with
      scalar_values := p.scalar_values.set idx normalized_value,
      plugin := iface.setParamNormalized p.plugin param_id normalized_value })

/-- Absolute value as computed by f32::abs in the delta comparison. -/
def ratAbs (x : Rat) : Rat := if x < 0 then -x else x

/-- Delta threshold used by prepare_process_data (plan line 517): f32::EPSILON. -/
def f32_epsilon : Rat := mkRat 1 (2 ^ 23)

/-- One automation point appended to the input parameter changes (plan line 518). -/
structure ParamPoint where
  id : Nat
  sampleOffset : Nat
  value : Rat
  deriving Repr, DecidableEq

/-- Parameter-delta walk of prepare_process_data (plan lines 506-531): for
each parameter index compare the cached value against the last-forwarded
value; on a delta above epsilon emit one automation point at sample offset 0
and update the last-forwarded value.  The Rust loop indexes scalar_values and
previous_values by the enumeration index, so the three lists are walked in
lockstep. -/
def collectChanges : List ParameterInfo → List Rat → List Rat → List ParamPoint × List Rat
  | p :: ps, c :: cs, pr :: prs =>
    let r := collectChanges ps cs prs
    if ratAbs (c - pr) > f32_epsilon then (⟨p.id, 0, c⟩ :: r.fst, c :: r.snd)
    else (r.fst, pr :: r.snd)
  | _, _, prs => ([], prs)

/-- Parameter part of prepare_process_data: the batched automation points
handed to the process call, and the processor with previous_values updated
(the scalar value cache is untouched). -/
def prepare_param_changes {σ : Type} (p : Vst3Processor σ) :
    List ParamPoint × Vst3Processor σ :=
  let r := collectChanges p.parameters p.scalar_values p.previous_values
  (r.fst, { p with previous_values := r.snd })

/-- Resync loop of restore_state (plan lines 593-600): for every parameter,
read getParamNormalized from the controller and store it at the index found by
position on the parameter id (first match). -/
def resyncValues (full : List ParameterInfo) (read : Nat → Rat) :
    List ParameterInfo → List Rat → List Rat
  | [], vals => vals
  | param :: rest, vals =>
    match listPosition (fun q => q.id == param.id) full with
    | some idx => resyncValues full read rest (vals.set idx (read param.id))
    | none => resyncValues full read rest vals

/-- Mirrors restore_state (plan lines 574-603): identity check first, then the
component bytes, then the controller bytes when non-empty, then the parameter
cache resync. -/
def restore_state {σ : Type} (iface : PluginIface σ) (p : Vst3Processor σ)
    (state : Vst3PluginState) : Except String Unit × Vst3Processor σ :=
  if state.plugin_id ≠ p.plugin_id then
    (Except.error "Plugin ID mismatch", p)
  else
    match iface.componentSetState p.plugin state.component_state with
    | (Except.error e, s1) => (Except.error e, { p with plugin := s1 })
    | (Except.ok _, s1) =>
      match (if state.controller_state.isEmpty then (Except.ok (), s1)
             else iface.controllerSetState s1 state.controller_state) with
      | (Except.error e, s2) => (Except.error e, { p with plugin := s2 })
      | (Except.ok _, s2) =>
        (Except.ok (), { p with
          plugin := s2,
          scalar_values := resyncValues p.parameters (iface.getParamNormalized s2)
            p.parameters p.scalar_values })

/-- A plugin model with no internal state: every native call succeeds and
reports the value 0 for every parameter. -/
def trivIface : PluginIface Unit where
  componentSetState := fun s _ => (Except.ok (), s)
  controllerSetState := fun s _ => (Except.ok (), s)
  getParamNormalized := fun _ _ => 0
  setParamNormalized := fun s _ _ => s

/-- A concrete one-parameter processor used to instantiate theorems. -/
def gainProcessor : Vst3Processor Unit where
  plugin_id := "dev.example.gain"
  name := "Gain"
  parameters := [{ id := 7, title := "Gain", short_title := "Gn", units := "dB",
                   step_count := 0, default_value := mkRat 1 2, flags := 0 }]
  scalar_values := [mkRat 1 2]
  previous_values := [mkRat 1 2]
  plugin := ()

/-- A state snapshot carrying a different plugin identity. -/
def mismatchedState : Vst3PluginState where
  plugin_id := "dev.example.delay"
  component_state := [1, 2, 3]
  controller_state := [4]

/-- C1: restoring a PluginState whose identity differs from the instance's
identity fails with the identity-mismatch error and returns the processor
exactly as it was: neither the live plugin state nor the ParameterStore value
cache is touched (no partial application). -/
theorem restore_state_identity_mismatch {σ : Type} (iface : PluginIface σ)
    (p : Vst3Processor σ) (state : Vst3PluginState)
    (h : state.plugin_id ≠ p.plugin_id) :
    restore_state iface p state = (Except.error "Plugin ID mismatch", p) := by
  simp [restore_state, h]

/-- Witness for C1 at a concrete processor and mismatched snapshot. -/
theorem restore_state_identity_mismatch_witness :
    mismatchedState.plugin_id ≠ gainProcessor.plugin_id ∧
    restore_state trivIface gainProcessor mismatchedState =
      (Except.error "Plugin ID mismatch", gainProcessor) :=
  ⟨by decide, restore_state_identity_mismatch trivIface gainProcessor mismatchedState
    (by decide)⟩

/-- C5 counterexample: on the one-parameter processor, setting the known
parameter 7 to the out-of-range normalized value 2 does not fail with an
out-of-range error — it succeeds and overwrites the cache with the unclamped
value, so the claim that such a call is rejected with OutOfRange and leaves
the cache unchanged is false. -/
theorem set_parameter_value_out_of_range_counterexample :
    (2 : Rat) > 1 ∧
    (set_parameter_value trivIface gainProcessor 7 2).fst = Except.ok () ∧
    (set_parameter_value trivIface gainProcessor 7 2).snd.scalar_values = [2] ∧
    gainProcessor.scalar_values ≠ [2] := by
  refine ⟨by norm_num, rfl, rfl, by decide⟩

/-- C5 amended: an unknown parameter id fails synchronously with the
parameter-not-found error and the processor (hence the cache) is returned
untouched, while any value on a known id — in range or not — is accepted:
the call succeeds and the cache afterwards reads back exactly that value,
with no clamping and no out-of-range rejection. -/
theorem set_parameter_value_amended {σ : Type} (iface : PluginIface σ)
    (p : Vst3Processor σ) (u k : Nat) (v : Rat) (idx : Nat)
    (hu : listPosition (fun q => q.id == u) p.parameters = none)
    (hk : listPosition (fun q => q.id == k) p.parameters = some idx)
    (hlen : p.scalar_values.length = p.parameters.length) :
    set_parameter_value iface p u v = (Except.error "Parameter not found", p) ∧
    (set_parameter_value iface p k v).fst = Except.ok () ∧
    get_parameter_value (set_parameter_value iface p k v).snd k = some v := by
  have hidx : idx < p.scalar_values.length := hlen ▸ listPosition_lt hk
  refine ⟨by simp [set_parameter_value, hu], by simp [set_parameter_value, hk], ?_⟩
  simp only [set_parameter_value, hk, get_parameter_value, Option.map_some']
  rw [getD_set_self _ _ _ hidx]

/-- Witness for C5's amended theorem: parameter id 9 is unknown, parameter id
7 is known, and the out-of-range value 2 is stored and read back. -/
theorem set_parameter_value_amended_witness :
    listPosition (fun q => q.id == 9) gainProcessor.parameters = none ∧
    listPosition (fun q => q.id == 7) gainProcessor.parameters = some 0 ∧
    (set_parameter_value trivIface gainProcessor 9 2 =
        (Except.error "Parameter not found", gainProcessor) ∧
      (set_parameter_value trivIface gainProcessor 7 2).fst = Except.ok () ∧
      get_parameter_value (set_parameter_value trivIface gainProcessor 7 2).snd 7 =
        some 2) :=
  ⟨by decide, by decide,
    set_parameter_value_amended trivIface gainProcessor 9 7 2 0 (by decide) (by decide)
      (by decide)⟩

/-- C6: for a known parameter id, set followed by prepareBlock followed by get
returns the value that was set (the prepare step only updates the
last-forwarded cache, never the value cache, and the model plugin does not
alter parameters on its own). -/
theorem set_prepare_get_roundtrip {σ : Type} (iface : PluginIface σ)
    (p : Vst3Processor σ) (id : Nat) (v : Rat) (idx : Nat)
    (hfind : listPosition (fun q => q.id == id) p.parameters = some idx)
    (hlen : p.scalar_values.length = p.parameters.length) :
    get_parameter_value
      (prepare_param_changes (set_parameter_value iface p id v).snd).snd id = some v := by
  have hidx : idx < p.scalar_values.length := hlen ▸ listPosition_lt hfind
  simp only [set_parameter_value, hfind, prepare_param_changes, get_parameter_value,
    Option.map_some']
  rw [getD_set_self _ _ _ hidx]

/-- Witness for C6 with the gain parameter set to 3/4. -/
theorem set_prepare_get_roundtrip_witness :
    listPosition (fun q => q.id == 7) gainProcessor.parameters = some 0 ∧
    gainProcessor.scalar_values.length = gainProcessor.parameters.length ∧
    get_parameter_value
      (prepare_param_changes
        (set_parameter_value trivIface gainProcessor 7 (mkRat 3 4)).snd).snd 7 =
      some (mkRat 3 4) :=

  ⟨by decide, by decide,
    set_prepare_get_roundtrip trivIface gainProcessor 7 (mkRat 3 4) 0 (by decide) (by decide)⟩

theorem listPosition_get_id {l : List ParameterInfo} {pid idx : Nat}
    (h : listPosition (fun q => q.id == pid) l = some idx)
    (hlt : idx < l.length) : (l.get ⟨idx, hlt⟩).id = pid := by
  obtain ⟨a, ha, hpa⟩ := listPosition_some_get? h
  obtain ⟨h1, h2⟩ := List.get?_eq_some.mp ha
  have : l.get ⟨idx, hlt⟩ = a := by rw [← h2]
  rw [this]
  simpa using hpa

theorem collectChanges_mem_of_delta :
    ∀ (params : List ParameterInfo) (cs prs : List Rat) (idx : Nat)
      (hidx : idx < params.length),
      ratAbs (cs.getD idx 0 - prs.getD idx 0) > f32_epsilon →
      cs.length = params.length → prs.length = params.length →
      ParamPoint.mk (params.get ⟨idx, hidx⟩).id 0 (cs.getD idx 0) ∈
        (collectChanges params cs prs).fst := by
  intro params
  induction params with
  | nil => intro cs prs idx hidx; simp at hidx
  | cons p ps ih =>
    intro cs prs idx hidx hdelta hcs hprs
    cases cs with
    | nil => simp at hcs
    | cons c cs2 =>
      cases prs with
      | nil => simp at hprs
      | cons pr prs2 =>
        cases idx with
        | zero =>
          simp only [List.getD_cons_zero] at hdelta ⊢
          simp only [collectChanges]
          rw [if_pos hdelta]
          exact List.mem_cons_self _ _
        | succ j =>
          have hj : j < ps.length := by simpa using hidx
          have hmem := ih cs2 prs2 j hj (by simpa using hdelta)
            (by simpa using hcs) (by simpa using hprs)
          simp only [collectChanges, List.getD_cons_succ, List.get_cons_succ]
          by_cases hc : ratAbs (c - pr) > f32_epsilon
          · rw [if_pos hc]
            exact List.mem_cons_of_mem _ hmem
          · rw [if_neg hc]
            exact hmem

/-- C4 counterexample: with a plugin model whose controller facet records every
setParamNormalized call, setting parameter 7 to 1/2 leaves a recorded call in
the plugin state — set DOES invoke the plugin's controller facet at the time
of the call, refuting the claim that the plugin is untouched until the next
prepareBlock. -/
theorem set_parameter_value_invokes_controller_counterexample :
    (set_parameter_value
        { componentSetState := fun s _ => (Except.ok (), s),
          controllerSetState := fun s _ => (Except.ok (), s),
          getParamNormalized := fun _ _ => 0,
          setParamNormalized := fun s pid v => s ++ [(pid, v)] }
        { plugin_id := "dev.example.gain", name := "Gain",
          parameters := [{ id := 7, title := "Gain", short_title := "Gn", units := "dB",
                           step_count := 0, default_value := 0, flags := 0 }],
          scalar_values := [0], previous_values := [0],
          plugin := ([] : List (Nat × Rat)) } 7 (mkRat 1 2)).snd.plugin =
      [(7, mkRat 1 2)] ∧
    ([(7, mkRat 1 2)] : List (Nat × Rat)) ≠ [] := by
  exact ⟨rfl, by decide⟩

/-- C4 amended: set(paramId, v) updates the host-side value cache and also
immediately invokes the plugin's edit-controller facet (setParamNormalized);
it does not touch the last-forwarded cache, so delivery to the processing path
still happens only at the next prepareBlock, where v appears in the batched
delta (when the delta against the last-forwarded value exceeds epsilon). -/
theorem set_parameter_value_batched_delta {σ : Type} (iface : PluginIface σ)
    (p : Vst3Processor σ) (id : Nat) (v : Rat) (idx : Nat)
    (hfind : listPosition (fun q => q.id == id) p.parameters = some idx)
    (hs : p.scalar_values.length = p.parameters.length)
    (hpv : p.previous_values.length = p.parameters.length)
    (hdelta : ratAbs (v - p.previous_values.getD idx 0) > f32_epsilon) :
    (set_parameter_value iface p id v).fst = Except.ok () ∧
    (set_parameter_value iface p id v).snd.plugin =
      iface.setParamNormalized p.plugin id v ∧
    (set_parameter_value iface p id v).snd.previous_values = p.previous_values ∧
    ParamPoint.mk id 0 v ∈
      (prepare_param_changes (set_parameter_value iface p id v).snd).fst := by
  have hlt : idx < p.parameters.length := listPosition_lt hfind
  have hlts : idx < p.scalar_values.length := hs ▸ hlt
  refine ⟨by simp [set_parameter_value, hfind], by simp [set_parameter_value, hfind],
    by simp [set_parameter_value, hfind], ?_⟩
  simp only [set_parameter_value, hfind, prepare_param_changes]
  have hset : (p.scalar_values.set idx v).getD idx 0 = v := getD_set_self _ _ _ hlts
  have hid : (p.parameters.get ⟨idx, hlt⟩).id = id := listPosition_get_id hfind hlt
  have := collectChanges_mem_of_delta p.parameters (p.scalar_values.set idx v)
    p.previous_values idx hlt (by rw [hset]; exact hdelta) (by simpa using hs) hpv
  rw [hid, hset] at this
  simpa using this

/-- A concrete one-parameter processor whose whole cache sits at zero. -/
def echoProcessor : Vst3Processor Unit where
  plugin_id := "dev.example.echo"
  name := "Echo"
  parameters := [{ id := 3, title := "Mix", short_title := "Mx", units := "",
                   step_count := 0, default_value := 0, flags := 0 }]
  scalar_values := [0]
  previous_values := [0]
  plugin := ()

theorem echo_delta_gt_epsilon :
    ratAbs (1 - echoProcessor.previous_values.getD 0 0) > f32_epsilon := by
  have h1 : ratAbs (1 - echoProcessor.previous_values.getD 0 0) = 1 := by
    norm_num [ratAbs, echoProcessor]
  rw [h1, f32_epsilon, Rat.mkRat_eq_div]
  norm_num

/-- Witness for C4's amended theorem at the concrete echo processor. -/
theorem set_parameter_value_batched_delta_witness :
    ratAbs (1 - echoProcessor.previous_values.getD 0 0) > f32_epsilon ∧
    ((set_parameter_value trivIface echoProcessor 3 1).fst = Except.ok () ∧
      (set_parameter_value trivIface echoProcessor 3 1).snd.plugin =
        trivIface.setParamNormalized echoProcessor.plugin 3 1 ∧
      (set_parameter_value trivIface echoProcessor 3 1).snd.previous_values =
        echoProcessor.previous_values ∧
      ParamPoint.mk 3 0 1 ∈
        (prepare_param_changes (set_parameter_value trivIface echoProcessor 3 1).snd).fst) :=
  ⟨echo_delta_gt_epsilon,
    set_parameter_value_batched_delta trivIface echoProcessor 3 1 0 (by decide) (by decide)
      (by decide) echo_delta_gt_epsilon⟩

theorem nodup_ids_eq_of_get {full : List ParameterInfo}
    (hnodup : (full.map (fun q => q.id)).Nodup)
    {i j : Nat} (hi : i < full.length) (hj : j < full.length)
    (h : (full.get ⟨i, hi⟩).id = (full.get ⟨j, hj⟩).id) : i = j := by
  have h2 : (full.map (fun q => q.id)).get ⟨i, by simpa using hi⟩ =
      (full.map (fun q => q.id)).get ⟨j, by simpa using hj⟩ := by
    simpa [List.get_eq_getElem, List.getElem_map] using h
  have h3 := (List.Nodup.get_inj_iff hnodup).mp h2
  simpa using congrArg Fin.val h3

theorem resyncValues_getD (full : List ParameterInfo) (read : Nat → Rat)
    (hnodup : (full.map (fun q => q.id)).Nodup) :
    ∀ (rs : List ParameterInfo) (vals : List Rat), (∀ r ∈ rs, r ∈ full) →
      vals.length = full.length →
      ∀ i (hi : i < full.length),
        (resyncValues full read rs vals).getD i 0 =
          if (full.get ⟨i, hi⟩).id ∈ rs.map (fun q => q.id) then
            read (full.get ⟨i, hi⟩).id
          else vals.getD i 0 := by
  intro rs
  induction rs with
  | nil =>
    intro vals _ _ i hi
    simp [resyncValues]
  | cons r rest ih =>
    intro vals hsub hlen i hi
    have hrfull : r ∈ full := hsub r (List.mem_cons_self r rest)
    have hsome : (listPosition (fun q => q.id == r.id) full).isSome :=
      listPosition_isSome_of_mem hrfull (by simp)
    obtain ⟨j, hj⟩ := Option.isSome_iff_exists.mp hsome
    have hjlt : j < full.length := listPosition_lt hj
    have haid : (full.get ⟨j, hjlt⟩).id = r.id := listPosition_get_id hj hjlt
    simp only [resyncValues, hj]
    have hlen2 : (vals.set j (read r.id)).length = full.length := by simpa using hlen
    rw [ih (vals.set j (read r.id))
      (fun x hx => hsub x (List.mem_cons_of_mem _ hx)) hlen2 i hi]
    by_cases hmem : (full.get ⟨i, hi⟩).id ∈ rest.map (fun q => q.id)
    · rw [if_pos hmem,
        if_pos (by rw [List.map_cons]; exact List.mem_cons_of_mem _ hmem)]
    · by_cases hij : i = j
      · subst hij
        have hidr : (full.get ⟨i, hi⟩).id = r.id := haid
        rw [if_neg hmem,
          if_pos (by rw [List.map_cons, hidr]; exact List.mem_cons_self _ _),
          getD_set_self _ _ _ (by rw [hlen]; exact hi), hidr]
      · have hne : (full.get ⟨i, hi⟩).id ≠ r.id := by
          intro hcontra
          exact hij (nodup_ids_eq_of_get hnodup hi hjlt (hcontra.trans haid.symm))
        rw [if_neg hmem, getD_set_ne _ _ hij,
          if_neg (by rw [List.map_cons]
                     exact fun hc => (List.mem_cons.mp hc).elim hne hmem)]

/-- C8: after a successful restoreState, every slot of the ParameterStore value
cache equals the normalized value the plugin's controller reports (through
getParamNormalized on the post-restore plugin state) for the parameter at that
slot — the value-read step of discovery is re-run for every parameter. -/
theorem restore_state_resyncs_cache {σ : Type} (iface : PluginIface σ)
    (p : Vst3Processor σ) (state : Vst3PluginState) (i : Nat)
    (hi : i < p.parameters.length)
    (hok : (restore_state iface p state).fst = Except.ok ())
    (hnodup : (p.parameters.map (fun q => q.id)).Nodup)
    (hlen : p.scalar_values.length = p.parameters.length) :
    ((restore_state iface p state).snd.scalar_values).getD i 0 =
      iface.getParamNormalized ((restore_state iface p state).snd.plugin)
        ((p.parameters.get ⟨i, hi⟩).id) := by
  by_cases hid : state.plugin_id ≠ p.plugin_id
  · simp only [restore_state, if_pos hid] at hok
    exact absurd hok (by simp)
  · rcases h1 : iface.componentSetState p.plugin state.component_state with ⟨r1, s1⟩
    cases r1 with
    | error e =>
      simp only [restore_state, if_neg hid, h1] at hok
      exact absurd hok (by simp)
    | ok u =>
      rcases h2 : (if state.controller_state.isEmpty then (Except.ok (), s1)
          else iface.controllerSetState s1 state.controller_state) with ⟨r2, s2⟩
      cases r2 with
      | error e =>
        simp only [restore_state, if_neg hid, h1, h2] at hok
        exact absurd hok (by simp)
      | ok u2 =>
        simp only [restore_state, if_neg hid, h1, h2]
        rw [resyncValues_getD p.parameters _ hnodup p.parameters p.scalar_values
          (fun r hr => hr) hlen i hi]
        rw [if_pos (List.mem_map.mpr ⟨p.parameters.get ⟨i, hi⟩, List.get_mem _ _ _, rfl⟩)]

/-- A state snapshot with the gain plugin's own identity. -/
def matchingState : Vst3PluginState where
  plugin_id := "dev.example.gain"
  component_state := [1, 2, 3]
  controller_state := []

/-- Witness for C8: a successful restore on the gain processor leaves slot 0
equal to the controller-reported value. -/
theorem restore_state_resyncs_cache_witness :
    (restore_state trivIface gainProcessor matchingState).fst = Except.ok () ∧
    ((restore_state trivIface gainProcessor matchingState).snd.scalar_values).getD 0 0 =
      trivIface.getParamNormalized
        ((restore_state trivIface gainProcessor matchingState).snd.plugin)
        ((gainProcessor.parameters.get ⟨0, by decide⟩).id) :=
  ⟨rfl, restore_state_resyncs_cache trivIface gainProcessor matchingState 0 (by decide)
    rfl (by decide) (by decide)⟩

/-- One observable step of plugin-instance teardown. -/
inductive TeardownStep where
  | deactivate
  | releaseProcessorFacet
  | releaseControllerFacet
  | terminateComponent
  | releaseComponent
  deriving Repr, DecidableEq, BEq

/-- Modelled from the spec: the teardown implementation is not in the
repository snapshot — the plan's Drop for Vst3Processor (lines 250-258) shows
only the deactivate call plus a terminate comment, and the facet releases are
implicit ComPtr drops inside the missing engine/src/vst3 sources.  Spec
section 4.2 fixes the order: deactivate (if active), release processing facet
(if present), release controller facet (if present), terminate component,
release component. -/
def teardown_sequence (is_active has_processor has_controller : Bool) :
    List TeardownStep :=
  (if is_active then [TeardownStep.deactivate] else []) ++
    (if has_processor then [TeardownStep.releaseProcessorFacet] else []) ++
    (if has_controller then [TeardownStep.releaseControllerFacet] else []) ++
    [TeardownStep.terminateComponent, TeardownStep.releaseComponent]

/-- Position of a teardown step in a teardown sequence (length when absent). -/
def stepIndex (s : TeardownStep) (l : List TeardownStep) : Nat :=
  l.findIdx (fun x => x == s)

/-- C2: in every teardown sequence of an instance that has both facets, the
processing facet and the controller facet are released strictly before
terminate is invoked on the component, terminate precedes the component
release, and an active instance is deactivated first. -/
theorem teardown_releases_facets_before_terminate (a b c : Bool)
    (hb : b = true) (hc : c = true) :
    stepIndex TeardownStep.releaseProcessorFacet (teardown_sequence a b c) <
      stepIndex TeardownStep.terminateComponent (teardown_sequence a b c) ∧
    stepIndex TeardownStep.releaseControllerFacet (teardown_sequence a b c) <
      stepIndex TeardownStep.terminateComponent (teardown_sequence a b c) ∧
    stepIndex TeardownStep.terminateComponent (teardown_sequence a b c) <
      stepIndex TeardownStep.releaseComponent (teardown_sequence a b c) ∧
    teardown_sequence true b c =
      TeardownStep.deactivate :: teardown_sequence false b c := by
  subst hb
  subst hc
  cases a <;> decide

/-- Witness for C2 at an active instance with both facets. -/
theorem teardown_releases_facets_before_terminate_witness :
    stepIndex TeardownStep.releaseProcessorFacet (teardown_sequence true true true) <
      stepIndex TeardownStep.terminateComponent (teardown_sequence true true true) ∧
    stepIndex TeardownStep.releaseControllerFacet (teardown_sequence true true true) <
      stepIndex TeardownStep.terminateComponent (teardown_sequence true true true) ∧
    stepIndex TeardownStep.terminateComponent (teardown_sequence true true true) <
      stepIndex TeardownStep.releaseComponent (teardown_sequence true true true) ∧
    teardown_sequence true true true =
      TeardownStep.deactivate :: teardown_sequence false true true :=
  teardown_releases_facets_before_terminate true true true rfl rfl

/-- Heap allocations performed by one call of prepare_process_data (plan lines
266-300) while building the input-bus pointer arrays: the loop constructs a
fresh channel_ptrs Vec::new() per active bus, whose first push allocates when
the bus has at least one channel, and a fresh input_bus_buffers Vec::new(),
which allocates on its first push as soon as one active bus exists.  Growth
reallocations are not counted, so this is a lower bound.  Inactive buses are
skipped by the continue. -/
def prepare_process_data_allocs (input_buses : List BusInfo) : Nat :=
  let active := input_buses.filter (fun b => b.is_active)
  (active.filter (fun b => 0 < b.channel_count)).length +
    (if active.isEmpty then 0 else 1)

/-- Heap allocations during blocks 2..n of steady-state processing with a
fixed bus configuration: prepare_process_data rebuilds its Vec scratch on
every block, so each of the n - 1 post-warmup blocks pays the full per-block
cost again. -/
def steady_state_allocs_after_first_block (input_buses : List BusInfo)
    (n : Nat) : Nat :=
  (n - 1) * prepare_process_data_allocs input_buses

/-- A fixed steady-state bus configuration: one active stereo input bus. -/
def stereoInBus : BusInfo where
  index := 0
  name := "Stereo In"
  channel_count := 2
  is_active := true

/-- C3 (code bug): with one active stereo input bus, prepare_process_data as
written performs two heap allocations on every block — the pointer-array
scratch is never pre-sized or reused — so ten steady-state blocks perform 18
allocations after the first block instead of the required zero.  This
contradicts the plan's own comment (real-time safe) and its risk-mitigation
note (pre-allocate all buffers). -/
theorem prepare_process_data_allocates_every_block :
    prepare_process_data_allocs [stereoInBus] = 2 ∧
    steady_state_allocs_after_first_block [stereoInBus] 10 = 18 ∧
    steady_state_allocs_after_first_block [stereoInBus] 10 ≠ 0 := by
  refine ⟨rfl, rfl, by decide⟩

/-- Host-side per-block audio state: the negotiated max block size and the
channel buffers a process call may write. -/
structure RtProcessor where
  max_block_size : Nat
  buffers : List (List Rat)
  deriving Repr, DecidableEq

/-- Modelled from the spec: the body of process_with_audio_io exists only as
comment pseudocode in the plan (lines 231-239) and the real
engine/src/vst3/processor.rs is not in the repository snapshot; spec section
4.3 requires a frame count exceeding the negotiated max block size to fail
fast with BlockTooLarge before any sample is written.  The in-range native
process effect on the buffers is abstracted as the function argument. -/
def process_block (plug : Nat → List (List Rat) → List (List Rat))
    (p : RtProcessor) (frames : Nat) : Except String Unit × RtProcessor :=
  if p.max_block_size < frames then (Except.error "BlockTooLarge", p)
  else (Except.ok (), { p with buffers := plug frames p.buffers })

/-- C7: a processing call whose frame count exceeds the negotiated max block
size fails fast with BlockTooLarge and returns the buffers exactly as they
were — no sample is written, hence no write past the end of any negotiated
buffer occurs. -/
theorem process_block_too_large_fails_fast
    (plug : Nat → List (List Rat) → List (List Rat)) (p : RtProcessor)
    (frames : Nat) (h : p.max_block_size < frames) :
    process_block plug p frames = (Except.error "BlockTooLarge", p) := by
  simp [process_block, h]

/-- Witness for C7: 1024 frames against a negotiated maximum of 512. -/
theorem process_block_too_large_fails_fast_witness :
    (512 : Nat) < 1024 ∧
    process_block (fun _ b => b) { max_block_size := 512, buffers := [[0]] } 1024 =
      (Except.error "BlockTooLarge",
        { max_block_size := 512, buffers := [[0]] }) :=
  ⟨by decide,
    process_block_too_large_fails_fast (fun _ b => b)
      { max_block_size := 512, buffers := [[0]] } 1024 (by decide)⟩

/-- Mirrors Vst3Instance (plan lines 981-984): a loaded plugin with its
per-track instance id. -/
structure Vst3Instance (σ : Type) where
  id : Nat
  processor : Vst3Processor σ
  deriving Repr, DecidableEq

/-- Mirrors the VST3-relevant fields of Track (plan lines 971-1001). -/
structure Track (σ : Type) where
  next_vst3_instance_id : Nat
  vst3_processors : List (Vst3Instance σ)
  deriving Repr, DecidableEq

def u64_max : Nat := 2 ^ 64 - 1

/-- u64 saturating_add of one, as used on next_vst3_instance_id. -/
def saturatingAddOne (n : Nat) : Nat := min (n + 1) u64_max

/-- Mirrors load_vst3_plugin (plan lines 971-990) on the success path of
Vst3Processor::new: the current counter becomes the instance id and the
counter advances with saturating addition. -/
def load_vst3_plugin {σ : Type} (t : Track σ) (processor : Vst3Processor σ) :
    Nat × Track σ :=
  (t.next_vst3_instance_id,
    { next_vst3_instance_id := saturatingAddOne t.next_vst3_instance_id,
      vst3_processors :=
        t.vst3_processors ++ [⟨t.next_vst3_instance_id, processor⟩] })

/-- Mirrors unload_vst3_plugin_instance (plan lines 992-1001): remove by
position of the matching id, or fail without change. -/
def unload_vst3_plugin_instance {σ : Type} (t : Track σ) (instance_id : Nat) :
    Except String Unit × Track σ :=
  match listPosition (fun i => i.id == instance_id) t.vst3_processors with
  | none => (Except.error "Instance not found", t)
  | some idx =>
    (Except.ok (), { t with vst3_processors := t.vst3_processors.eraseIdx idx })

/-- Walk locating the first instance with the given id (the find in plan line
635) and restoring the supplied state into it; none when no instance matches. -/
def restore_in_list {σ : Type} (iface : PluginIface σ) (instance_id : Nat)
    (state : Vst3PluginState) :
    List (Vst3Instance σ) → Option (Except String Unit × List (Vst3Instance σ))
  | [] => none
  | inst :: rest =>
    if inst.id == instance_id then
      let r := restore_state iface inst.processor state
      some (r.fst, { id := inst.id, processor := r.snd } :: rest)
    else
      (restore_in_list iface instance_id state rest).map
        (fun r => (r.fst, inst :: r.snd))

/-- Mirrors Track::vst3_restore_states (plan lines 633-642): entries whose id
matches no loaded instance are skipped without any error; a failing restore
aborts with its error, keeping the mutations already applied. -/
def vst3_restore_states {σ : Type} (iface : PluginIface σ) :
    Track σ → List (Nat × Vst3PluginState) → Except String Unit × Track σ
  | t, [] => (Except.ok (), t)
  | t, (instance_id, state) :: rest =>
    match restore_in_list iface instance_id state t.vst3_processors with
    | none => vst3_restore_states iface t rest
    | some (Except.error e, procs) =>
      (Except.error e, { t with vst3_processors := procs })
    | some (Except.ok _, procs) =>
      vst3_restore_states iface { t with vst3_processors := procs } rest

/-- Response side of the engine message channel for the graph query. -/
inductive EngineResponse where
  | vst3Graph (track_name : String) (plugins : List (Nat × String))
  deriving Repr, DecidableEq

/-- Mirrors vst3_graph_plugins (plan lines 1016-1024), reduced to the id and
name of each loaded instance. -/
def vst3_graph_plugins {σ : Type} (t : Track σ) : List (Nat × String) :=
  t.vst3_processors.map (fun i => (i.id, i.processor.name))

/-- Mirrors the TrackGetVst3Graph arm of Engine::handle_action (plan lines
939-950): the response is sent only inside if let Some(track); an unknown
track name produces no message at all. -/
def handle_get_vst3_graph {σ : Type} (tracks : List (String × Track σ))
    (track_name : String) : List EngineResponse :=
  match tracks.lookup track_name with
  | some t => [EngineResponse.vst3Graph track_name (vst3_graph_plugins t)]
  | none => []

/-- A concrete track holding the gain processor as instance 0. -/
def gainTrack : Track Unit where
  next_vst3_instance_id := 1
  vst3_processors := [{ id := 0, processor := gainProcessor }]

/-- A syntactically valid snapshot for the gain plugin identity. -/
def gainState : Vst3PluginState where
  plugin_id := "dev.example.gain"
  component_state := [9]
  controller_state := []

/-- C9 counterexample: a bulk state-restore naming only the unknown instance
id 5 completes as a success while having had no effect on the track, and a
graph request naming an unknown track produces no response message at all —
both are silent no-ops, refuting the claim. -/
theorem control_plane_silent_noop_counterexample :
    vst3_restore_states trivIface gainTrack [(5, gainState)] =
      (Except.ok (), gainTrack) ∧
    handle_get_vst3_graph [("one", gainTrack)] "two" = [] := by
  exact ⟨rfl, rfl⟩

theorem restore_in_list_eq_none {σ : Type} (iface : PluginIface σ)
    (instance_id : Nat) (state : Vst3PluginState) :
    ∀ l : List (Vst3Instance σ), (∀ inst ∈ l, inst.id ≠ instance_id) →
      restore_in_list iface instance_id state l = none := by
  intro l
  induction l with
  | nil => intro _; rfl
  | cons inst rest ih =>
    intro h
    have hne : inst.id ≠ instance_id := h inst (List.mem_cons_self _ _)
    have hbeq : (inst.id == instance_id) = false := by
      simpa using hne
    simp only [restore_in_list, hbeq, Bool.false_eq_true, if_false]
    rw [ih (fun x hx => h x (List.mem_cons_of_mem _ hx))]
    rfl

/-- C9 amended: a control-plane request addressed to a known target either
succeeds with the expected response or fails with a string-described error,
but a bulk state-restore entry naming an unknown instance id is silently
skipped (the call proceeds as if the entry were absent, succeeding with no
effect for it), and a graph request naming an unknown track name sends no
response at all. -/
theorem control_plane_unknown_target_behavior {σ : Type} (iface : PluginIface σ)
    (t : Track σ) (instance_id : Nat) (state : Vst3PluginState)
    (rest : List (Nat × Vst3PluginState))
    (tracks : List (String × Track σ)) (track_name : String)
    (hid : ∀ inst ∈ t.vst3_processors, inst.id ≠ instance_id)
    (hname : tracks.lookup track_name = none) :
    vst3_restore_states iface t ((instance_id, state) :: rest) =
      vst3_restore_states iface t rest ∧
    handle_get_vst3_graph tracks track_name = [] := by
  constructor
  · simp only [vst3_restore_states,
      restore_in_list_eq_none iface instance_id state t.vst3_processors hid]
  · simp only [handle_get_vst3_graph, hname]

/-- Witness for C9's amended theorem: instance id 5 is unknown on the gain
track and track name two is unknown to the engine. -/
theorem control_plane_unknown_target_behavior_witness :
    (∀ inst ∈ gainTrack.vst3_processors, inst.id ≠ 5) ∧
    ([("one", gainTrack)].lookup "two" = none) ∧
    (vst3_restore_states trivIface gainTrack [(5, gainState), (0, gainState)] =
        vst3_restore_states trivIface gainTrack [(0, gainState)] ∧
      handle_get_vst3_graph [("one", gainTrack)] "two" = []) :=
  ⟨by decide, by decide,
    control_plane_unknown_target_behavior trivIface gainTrack 5 gainState
      [(0, gainState)] [("one", gainTrack)] "two" (by decide) (by decide)⟩

/-- One control-plane operation on a track; a failed load models
Vst3Processor::new returning Err, which leaves the counter untouched. -/
inductive TrackOp (σ : Type) where
  | load (ok : Bool) (processor : Vst3Processor σ)
  | unload (instance_id : Nat)

/-- Run a sequence of operations, collecting the ids assigned by successful
loads in order. -/
def run_ops {σ : Type} : List (TrackOp σ) → Track σ → Track σ × List Nat
  | [], t => (t, [])
  | TrackOp.load true proc :: rest, t =>
    let r := load_vst3_plugin t proc
    let r2 := run_ops rest r.snd
    (r2.fst, r.fst :: r2.snd)
  | TrackOp.load false _ :: rest, t => run_ops rest t
  | TrackOp.unload i :: rest, t =>
    run_ops rest (unload_vst3_plugin_instance t i).snd

def successful_loads {σ : Type} : List (TrackOp σ) → Nat
  | [] => 0
  | TrackOp.load true _ :: rest => successful_loads rest + 1
  | TrackOp.load false _ :: rest => successful_loads rest
  | TrackOp.unload _ :: rest => successful_loads rest

/-- A freshly created track: the per-track instance-id counter starts at zero. -/
def initialTrack (σ : Type) : Track σ where
  next_vst3_instance_id := 0
  vst3_processors := []

/-- Consecutive ids from s: s, s + 1, ..., s + n - 1. -/
def idRange : Nat → Nat → List Nat
  | _, 0 => []
  | s, n + 1 => s :: idRange (s + 1) n

theorem mem_idRange_le : ∀ {n s m : Nat}, m ∈ idRange s n → s ≤ m := by
  intro n
  induction n with
  | zero => intro s m h; simp [idRange] at h
  | succ k ih =>
    intro s m h
    rcases List.mem_cons.mp h with h1 | h2
    · exact h1 ▸ Nat.le_refl _
    · exact Nat.le_of_succ_le (ih h2)

theorem idRange_pairwise : ∀ (n s : Nat), (idRange s n).Pairwise (· < ·) := by
  intro n
  induction n with
  | zero => intro s; simp [idRange]
  | succ k ih =>
    intro s
    refine List.Pairwise.cons ?_ (ih (s + 1))
    intro m hm
    exact Nat.lt_of_succ_le (mem_idRange_le hm)

theorem unload_preserves_counter {σ : Type} (t : Track σ) (i : Nat) :
    (unload_vst3_plugin_instance t i).snd.next_vst3_instance_id =
      t.next_vst3_instance_id := by
  cases hpos : listPosition (fun x => x.id == i) t.vst3_processors <;>
    simp [unload_vst3_plugin_instance, hpos]

theorem run_ops_ids {σ : Type} :
    ∀ (ops : List (TrackOp σ)) (t : Track σ),
      t.next_vst3_instance_id + successful_loads ops ≤ u64_max →
      (run_ops ops t).snd =
        idRange t.next_vst3_instance_id (successful_loads ops) := by
  intro ops
  induction ops with
  | nil => intro t _; rfl
  | cons op rest ih =>
    intro t h
    cases op with
    | load ok proc =>
      cases ok with
      | false =>
        simp only [successful_loads] at h
        simpa [run_ops, successful_loads] using ih t h
      | true =>
        simp only [successful_loads] at h
        have hlt : t.next_vst3_instance_id + 1 ≤ u64_max := by omega
        have hsat : saturatingAddOne t.next_vst3_instance_id =
            t.next_vst3_instance_id + 1 := Nat.min_eq_left hlt
        have hrec := ih (load_vst3_plugin t proc).snd
          (by simp only [load_vst3_plugin, hsat]; omega)
        simp only [load_vst3_plugin, hsat] at hrec
        simp only [run_ops, load_vst3_plugin, hsat, successful_loads, idRange, hrec]
    | unload i =>
      simp only [successful_loads] at h
      have hrec := ih (unload_vst3_plugin_instance t i).snd
        (by rw [unload_preserves_counter]; exact h)
      simp only [run_ops, hrec, unload_preserves_counter, successful_loads]

/-- C10: over any operation sequence with fewer than 2^64 successful loads on
a fresh track, the assigned instance ids are 0, 1, 2, ... — each id is
strictly greater than every id assigned before it (so ids are pairwise
distinct and an unloaded id is never reused). -/
theorem load_plugin_ids_strictly_increasing {σ : Type} (ops : List (TrackOp σ))
    (h : successful_loads ops < 2 ^ 64) :
    (run_ops ops (initialTrack σ)).snd =
      idRange 0 (successful_loads ops) ∧
    (run_ops ops (initialTrack σ)).snd.Pairwise (· < ·) ∧
    (run_ops ops (initialTrack σ)).snd.Nodup := by
  have hle : (initialTrack σ).next_vst3_instance_id + successful_loads ops ≤
      u64_max := by
    simp only [initialTrack, u64_max]
    omega
  have hids := run_ops_ids ops (initialTrack σ) hle
  refine ⟨hids, ?_, ?_⟩
  · rw [hids]; exact idRange_pairwise _ _
  · rw [hids]
    exact (idRange_pairwise _ _).imp (fun hlt => Nat.ne_of_lt hlt)

/-- A concrete operation sequence: two successful loads around a failed load
and an unload. -/
def opsW : List (TrackOp Unit) :=
  [TrackOp.load true gainProcessor, TrackOp.load false gainProcessor,
    TrackOp.unload 0, TrackOp.load true gainProcessor]

/-- Witness for C10: the sequence assigns ids 0 then 1; id 0 is not reused
after its unload. -/
theorem load_plugin_ids_strictly_increasing_witness :
    successful_loads opsW < 2 ^ 64 ∧
    ((run_ops opsW (initialTrack Unit)).snd = idRange 0 (successful_loads opsW) ∧
      (run_ops opsW (initialTrack Unit)).snd.Pairwise (· < ·) ∧
      (run_ops opsW (initialTrack Unit)).snd.Nodup) :=
  ⟨by decide, load_plugin_ids_strictly_increasing opsW (by decide)⟩

end Vst3
